import Mathlib

/-!
Verification development for the znote-asr transcription service.

The development shallowly embeds the task-lifecycle core of the repository:

* `query_asr_result_once` (src/asr_transcribe.py, lines 184-326): the single-shot
  result interpreter, a pure function from one parsed query response (or a
  transport-level exception) to a pair `(transcript?, error_message?)`.
  `(none, none)` encodes "still processing", `(some t, none)` encodes
  "completed with text t" (t may be empty), `(none, some e)` encodes "failed".
* `query_asr_result` (src/asr_transcribe.py, lines 329-381): the bounded retry
  loop wrapping the interpreter.  The external service is modelled as an
  oracle mapping the index of the call to the pair the interpreter would
  return for that call; the embedding additionally counts oracle calls.
* The task store and its mutators (src/app.py and src/background_tasks.py):
  `ASRTask` mirrors the `ASRTask` row, the submission endpoints create rows,
  `pollerProcess`/`checkPendingTasks` mirror `TaskPoller._check_pending_tasks`,
  and `syncFinish` mirrors the post-query update of `/transcribe/sync`.

Python truthiness on optional strings (`if error_msg:`, `if not transcript:`)
is modelled by `pyTruthy`, which is false exactly on `none` and `some ""`.
-/

/-- Lowercasing as used by the Python `str.lower` calls (ASCII suffices for the
keywords the code searches for). -/
def strLower (s : String) : String := String.mk (s.data.map Char.toLower)

/-- Check whether the needle occurs at the head of the haystack. -/
def matchAt : List Char → List Char → Bool
  | [], _ => true
  | _ :: _, [] => false
  | a :: as, b :: bs => a == b && matchAt as bs

/-- Check whether the needle occurs anywhere in the haystack. -/
def containsSub (needle : List Char) : List Char → Bool
  | [] => matchAt needle []
  | b :: bs => matchAt needle (b :: bs) || containsSub needle bs

/-- Python substring test `needle in hay`. -/
def strContains (hay needle : String) : Bool := containsSub needle.data hay.data

/-- Python truthiness of an optional string: `None` and `""` are falsy. -/
def pyTruthy : Option String → Bool
  | none => false
  | some s => s ≠ ""

/-- One entry of the `utterances` array of a query response
(src/asr_transcribe.py, lines 270-286).  `text` models
`utterance.get('text', '')`; the three speaker fields model the three places the
code looks for a speaker identifier, `none` meaning the key is absent. -/
structure Utterance where
  text : String
  speaker_id : Option String
  speaker : Option String
  additions_speaker : Option String
deriving DecidableEq

/-- Speaker resolution chain of src/asr_transcribe.py lines 276-281:
`utterance.get('speaker_id') or utterance.get('speaker') or
additions.get('speaker') or ''` under Python truthiness. -/
def orFalsy (a : Option String) (b : String) : String :=
  match a with
  | some s => if s = "" then b else s
  | none => b

/-- Resolved speaker label of one utterance. -/
def speakerOf (u : Utterance) : String :=
  orFalsy u.speaker_id (orFalsy u.speaker (orFalsy u.additions_speaker ""))

/-- The `result` sub-object of a query response body.  `utterances` is `some`
exactly when the key is present with a list value (the `isinstance` check of
line 270); `text` models `result_data.get('text', '')`. -/
structure ResultPayload where
  utterances : Option (List Utterance)
  text : String
deriving DecidableEq

/-- One parsed HTTP response of the query endpoint, as consumed by
`query_asr_result_once`.  Header fields default to `""` when absent
(`response.headers.get(..., '')`); body fields are `none` when the key is
absent.  `body_is_json` records whether the body parses as JSON (used only on
the non-200 error path); `body_snippet` models `response.text[:200]`;
`has_audio_info` records whether the top-level body has an `audio_info` key. -/
structure QueryResponse where
  status_code : Nat
  api_status_code : String
  api_message : String
  body_error : Option String
  body_message : Option String
  body_status : Option String
  body_result : Option ResultPayload
  has_audio_info : Bool
  body_is_json : Bool
  body_snippet : String
deriving DecidableEq

/-- What happens to a requests exception carrying (or not) a response, for the
`RequestException` handler of src/asr_transcribe.py lines 317-326. -/
inductive ExcResponse where
  | noResponse
  | jsonWithMessage (m : String)
  | jsonNoMessage
  | notJson (snippet : String)
deriving DecidableEq

/-- One invocation of the query call: either a parsed response or one of the
exception outcomes caught at src/asr_transcribe.py lines 313-326. -/
inductive QueryInput where
  | response (r : QueryResponse)
  | timeout
  | connectionError
  | requestException (excStr : String) (er : ExcResponse)
deriving DecidableEq

/-- Error message built by the `RequestException` handler
(src/asr_transcribe.py lines 317-325). -/
def reqExcMsg (s : String) : ExcResponse → String
  | ExcResponse.noResponse => "Request exception: " ++ s
  | ExcResponse.jsonWithMessage m => m
  | ExcResponse.jsonNoMessage => "Request exception: " ++ s
  | ExcResponse.notJson snippet => "Request exception: " ++ s ++ ", Response: " ++ snippet

/-- Error message built on the non-200 path (src/asr_transcribe.py
lines 211-221): prefer the body's `message`, then `error`, else a generic
status-code message; when the body is not JSON, the generic message with a
body snippet. -/
def non200Msg (r : QueryResponse) : String :=
  if r.body_is_json then
    match r.body_message with
    | some m => m
    | none =>
      match r.body_error with
      | some e => e
      | none => "ASR query API returned status code " ++ toString r.status_code
  else
    "ASR query API returned status code " ++ toString r.status_code ++ ": " ++ r.body_snippet

/-- Utterance concatenation of src/asr_transcribe.py lines 270-296: collect a
line per utterance with non-empty text (speaker-tagged when a speaker is
resolved), join with newlines; on an empty collection fall back to the
`audio_info` disambiguation. -/
def interpretUtterances (us : List Utterance) (has_audio_info : Bool) :
    Option String × Option String :=
  let transcript_parts := us.filterMap (fun u =>
    if u.text ≠ "" then
      some (if speakerOf u ≠ "" then "[说话人" ++ speakerOf u ++ "] " ++ u.text else u.text)
    else none)
  if transcript_parts ≠ [] then
    (some (String.intercalate "\n" transcript_parts), none)
  else if has_audio_info then (some "", none)
  else (none, none)

/-- Extraction from the `result` payload (src/asr_transcribe.py
lines 266-311), reached after the header and `status` checks fall through. -/
def resultCheck (r : QueryResponse) : Option String × Option String :=
  match r.body_result with
  | some result_data =>
    match result_data.utterances with
    | some us => interpretUtterances us r.has_audio_info
    | none =>
      let transcript := result_data.text
      if r.has_audio_info then
        (some (if transcript ≠ "" then transcript else ""), none)
      else if transcript ≠ "" then (some transcript, none)
      else (none, none)
  | none => (none, none)

/-- Body `status` field check (src/asr_transcribe.py lines 256-263), falling
through to `resultCheck` when inconclusive. -/
def statusAndResultCheck (r : QueryResponse) : Option String × Option String :=
  match r.body_status with
  | some s =>
    if s = "failed" ∨ s = "error" then
      (none, some ("ASR task failed: " ++ (r.body_message.getD (r.body_error.getD "Task failed"))))
    else if s = "processing" ∨ s = "pending" then (none, none)
    else resultCheck r
  | none => resultCheck r

/-- Side-channel header code check (src/asr_transcribe.py lines 238-253),
falling through to the `status`/result checks when inconclusive. -/
def apiCodeCheck (r : QueryResponse) : Option String × Option String :=
  if r.api_status_code ≠ "" then
    if r.api_status_code = "20000001" then (none, none)
    else if r.api_status_code = "20000003" then (some "", none)
    else if r.api_status_code ≠ "20000000" then
      if strContains (strLower r.api_message) "no valid speech" ∨
          strContains (strLower r.api_message) "silence" then (some "", none)
      else if strContains (strLower r.api_message) "error" ∨
          strContains (strLower r.api_message) "fail" then
        (none, some ("ASR API error: " ++ r.api_message))
      else if strContains (strLower r.api_message) "processing" ∨
          strContains (strLower r.api_message) "start processing" then (none, none)
      else statusAndResultCheck r
    else statusAndResultCheck r
  else statusAndResultCheck r

/-- Single-shot result interpreter, src/asr_transcribe.py lines 184-326
(`query_asr_result_once`).  Returns `(transcript?, error_message?)`. -/
def query_asr_result_once (q : QueryInput) : Option String × Option String :=
  match q with
  | QueryInput.timeout => (none, some "Timeout while querying ASR result")
  | QueryInput.connectionError => (none, some "Connection error while querying ASR result")
  | QueryInput.requestException s er => (none, some (reqExcMsg s er))
  | QueryInput.response r =>
    if r.status_code ≠ 200 then (none, some (non200Msg r))
    else if r.body_error.isSome then
      (none, some ("ASR task error: " ++ (r.body_message.getD (r.body_error.getD "Unknown error"))))
    else apiCodeCheck r

/-- Retry loop of src/asr_transcribe.py lines 341-381, with the external
service modelled as `oracle : Nat → Option String × Option String` giving the
interpreter result of the n-th query call (0-based), and the total number of
oracle calls returned alongside the result.  `fuel` counts the remaining
iterations of `for attempt in range(max_retries)`, so the current attempt
index is `max_retries - fuel`; `calls` counts queries made so far. -/
def query_asr_result_go (oracle : Nat → Option String × Option String)
    (max_retries : Nat) : Nat → Nat → (Option String × Option String) × Nat
  | 0, calls =>
    ((none, some ("Exceeded maximum retry count (" ++ toString max_retries ++ ")")), calls)
  | fuel + 1, calls =>
    let attempt := max_retries - (fuel + 1)
    let res := oracle calls
    match res.1 with
    | some ts =>
      if ts = "" ∧ res.2 = none ∧ attempt < max_retries - 1 then
        let res2 := oracle (calls + 1)
        match res2.1 with
        | some ts2 => ((some ts2, res2.2), calls + 2)
        | none => query_asr_result_go oracle max_retries fuel (calls + 2)
      else ((res.1, none), calls + 1)
    | none =>
      if pyTruthy res.2 then
        if attempt < max_retries - 1 then
          if strContains ((res.2).getD "") "Timeout" ∨
              strContains ((res.2).getD "") "Connection" then
            query_asr_result_go oracle max_retries fuel (calls + 1)
          else ((none, res.2), calls + 1)
        else ((none, res.2), calls + 1)
      else
        if attempt < max_retries - 1 then
          query_asr_result_go oracle max_retries fuel (calls + 1)
        else
          ((none, some ("Exceeded maximum retry count (" ++ toString max_retries ++
            "), task may still be processing")), calls + 1)

/-- Retry Query Engine with a call counter: result of
`query_asr_result(task_id, max_retries, ...)` together with the number of
`query_asr_result_once` invocations it performs. -/
def query_asr_result_counted (oracle : Nat → Option String × Option String)
    (max_retries : Nat) : (Option String × Option String) × Nat :=
  query_asr_result_go oracle max_retries max_retries 0

/-- Retry Query Engine, src/asr_transcribe.py lines 329-381
(`query_asr_result`). -/
def query_asr_result (oracle : Nat → Option String × Option String)
    (max_retries : Nat) : Option String × Option String :=
  (query_asr_result_counted oracle max_retries).1

/-- One row of the `asr_tasks` table (src/database.py, `ASRTask`).
Timestamps are abstracted to naturals. -/
structure ASRTask where
  id : Nat
  audio_url : String
  task_id : String
  status : String
  transcript : Option String
  error_message : Option String
  created_at : Nat
  updated_at : Nat
  completed_at : Option Nat
deriving DecidableEq

/-- Three-way status/field invariant of spec §3. -/
def taskInvariant (t : ASRTask) : Prop :=
  (t.status = "completed" ↔ t.transcript.isSome ∧ t.error_message = none) ∧
  (t.status = "failed" ↔ t.error_message.isSome ∧ t.transcript = none) ∧
  ((t.status = "pending" ∨ t.status = "processing") ↔
    t.transcript = none ∧ t.error_message = none)

instance (t : ASRTask) : Decidable (taskInvariant t) := by
  unfold taskInvariant; infer_instance

/-- Failed task row created when URL validation fails
(src/app.py lines 120-128 and 293-301). -/
def validationFailedTask (i : Nat) (url suffix msg : String) (now : Nat) : ASRTask :=
  { id := i, audio_url := url, task_id := "failed_" ++ suffix, status := "failed",
    transcript := none,
    error_message := some ("Audio URL validation failed: " ++ msg),
    created_at := now, updated_at := now, completed_at := none }

/-- Failed task row created when the external submit call fails
(src/app.py lines 140-148 and 313-321). -/
def submitFailedTask (i : Nat) (url suffix msg : String) (now : Nat) : ASRTask :=
  { id := i, audio_url := url, task_id := "failed_" ++ suffix, status := "failed",
    transcript := none,
    error_message := some ("Failed to submit transcription task: " ++ msg),
    created_at := now, updated_at := now, completed_at := none }

/-- Pending task row created by the asynchronous submission endpoint
(src/app.py lines 156-163). -/
def pendingTask (i : Nat) (url tid : String) (now : Nat) : ASRTask :=
  { id := i, audio_url := url, task_id := tid, status := "pending",
    transcript := none, error_message := none,
    created_at := now, updated_at := now, completed_at := none }

/-- Processing task row created by the synchronous endpoint before querying
(src/app.py lines 329-336). -/
def syncCreatedTask (i : Nat) (url tid : String) (now : Nat) : ASRTask :=
  { id := i, audio_url := url, task_id := tid, status := "processing",
    transcript := none, error_message := none,
    created_at := now, updated_at := now, completed_at := none }

/-- Outcome of one `query_asr_result_once` call as seen by the poller: the
returned pair, or an exception escaping the call (caught by the per-task
handler of src/background_tasks.py lines 110-116). -/
inductive OnceOutcome where
  | ok (transcript : Option String) (error_msg : Option String)
  | exc (msg : String)
deriving DecidableEq

/-- Body of the per-task loop of `TaskPoller._check_pending_tasks`
(src/background_tasks.py lines 75-116), applied to one scanned task: promote
`pending` to `processing`, then dispatch on the query outcome; an exception is
caught and forces the task to `failed` with an internal-error message. -/
def pollerProcess (o : OnceOutcome) (now : Nat) (t : ASRTask) : ASRTask :=
  let t1 := if t.status = "pending" then
    { t with status := "processing", updated_at := now } else t
  match o with
  | OnceOutcome.exc m =>
    { t1 with
      status := "failed"
      error_message := some ("Internal error: " ++ m)
      updated_at := now }
  | OnceOutcome.ok transcript error_msg =>
    if pyTruthy error_msg then
      { t1 with status := "failed", error_message := error_msg, updated_at := now }
    else
      match transcript with
      | some ts =>
        { t1 with
          status := "completed"
          transcript := some (if ts ≠ "" then ts else "")
          completed_at := some now
          updated_at := now }
      | none => { t1 with updated_at := now }

/-- Scan guard of the poller: the tick only processes tasks the filter
`ASRTask.status.in_(["pending", "processing"])` selects
(src/background_tasks.py lines 66-68); other tasks are untouched. -/
def pollerStepGuarded (o : OnceOutcome) (now : Nat) (t : ASRTask) : ASRTask :=
  if t.status = "pending" ∨ t.status = "processing" then pollerProcess o now t else t

/-- One tick of the Background Poller over the task table
(src/background_tasks.py `_check_pending_tasks`), the external query outcome
for a task being keyed by its `task_id`. -/
def checkPendingTasks (oracle : String → OnceOutcome) (now : Nat)
    (tasks : List ASRTask) : List ASRTask :=
  tasks.map (fun t => pollerStepGuarded (oracle t.task_id) now t)

/-- Response of the synchronous endpoint after its query: an HTTP error with
a status code and detail, or a success carrying the transcript. -/
inductive SyncOutcome where
  | httpError (status : Nat) (detail : String)
  | ok (transcript : String)
deriving DecidableEq

/-- Post-query update of the synchronous endpoint (src/app.py lines 345-376):
`if not transcript:` treats both `None` and `""` as absent; on a truthy error
the task is set to `failed`, else left `processing`, and HTTP 500 is raised;
otherwise the task is completed.  The update writes only the fields the code
assigns, leaving the others at whatever the row held. -/
def syncFinish (qr : Option String × Option String) (now : Nat) (t : ASRTask) :
    ASRTask × SyncOutcome :=
  let transcript := qr.1
  let error_msg := qr.2
  let detail := if pyTruthy error_msg then error_msg.getD "" else
    "Failed to get transcription result, task may still be processing"
  if pyTruthy transcript = false then
    if pyTruthy error_msg then
      ({ t with status := "failed", error_message := error_msg, updated_at := now },
        SyncOutcome.httpError 500 detail)
    else
      ({ t with status := "processing", updated_at := now },
        SyncOutcome.httpError 500 detail)
  else
    ({ t with
        status := "completed"
        transcript := transcript
        completed_at := some now
        updated_at := now },
      SyncOutcome.ok (transcript.getD ""))

/-- Unfolding lemma: a still-processing oracle answer on a non-final attempt
makes the retry loop continue with one more call consumed. -/
theorem go_step_still (oracle : Nat → Option String × Option String)
    (max_retries fuel calls : Nat) (h : oracle calls = (none, none))
    (hlt : max_retries - (fuel + 1) < max_retries - 1) :
    query_asr_result_go oracle max_retries (fuel + 1) calls =
      query_asr_result_go oracle max_retries fuel (calls + 1) := by
  rw [query_asr_result_go, h]
  simp [pyTruthy, hlt]

/-- Unfolding lemma: a completed oracle answer with non-empty text returns
immediately with one more call consumed. -/
theorem go_step_nonempty (oracle : Nat → Option String × Option String)
    (max_retries fuel calls : Nat) (ts : String)
    (h : oracle calls = (some ts, none)) (hne : ts ≠ "") :
    query_asr_result_go oracle max_retries (fuel + 1) calls =
      ((some ts, none), calls + 1) := by
  rw [query_asr_result_go, h]
  simp [hne]

/-- Unfolding lemma: an empty completed answer on a non-final attempt triggers
the confirmatory extra query; when that also completes, its result is returned
with two more calls consumed. -/
theorem go_step_empty_confirm (oracle : Nat → Option String × Option String)
    (max_retries fuel calls : Nat) (ts2 : String) (e2 : Option String)
    (h : oracle calls = (some "", none))
    (hlt : max_retries - (fuel + 1) < max_retries - 1)
    (h2 : oracle (calls + 1) = (some ts2, e2)) :
    query_asr_result_go oracle max_retries (fuel + 1) calls =
      ((some ts2, e2), calls + 2) := by
  rw [query_asr_result_go, h]
  simp only []
  rw [if_pos ⟨trivial, trivial, hlt⟩, h2]

/-- C5: the Retry Query Engine with maxAttempts ≥ 2 against an oracle whose
first two answers are Completed("") returns ("", no error) after the
confirmatory re-check, performing exactly 2 single-query invocations. -/
theorem retry_engine_confirms_empty (oracle : Nat → Option String × Option String)
    (max_retries : Nat) (h : 2 ≤ max_retries)
    (h0 : oracle 0 = (some "", none)) (h1 : oracle 1 = (some "", none)) :
    query_asr_result_counted oracle max_retries = ((some "", none), 2) := by
  obtain ⟨k, rfl⟩ : ∃ k, max_retries = k + 2 := ⟨max_retries - 2, by omega⟩
  unfold query_asr_result_counted
  rw [go_step_empty_confirm oracle (k + 2) (k + 1) 0 "" none h0 (by omega) h1]

/-- C5 witness at maxAttempts = 2. -/
theorem retry_engine_confirms_empty_witness :
    query_asr_result_counted (fun _ => (some "", none)) 2 = ((some "", none), 2) :=
  retry_engine_confirms_empty (fun _ => (some "", none)) 2 (by omega) rfl rfl

/-- C6: the Retry Query Engine with maxAttempts ≥ 3 against an oracle whose
successive answers are StillProcessing, StillProcessing, Completed("hello")
returns ("hello", no error) and performs exactly 3 single-query invocations,
with no confirmatory extra call since the text is non-empty. -/
theorem retry_engine_nonempty_immediate (oracle : Nat → Option String × Option String)
    (max_retries : Nat) (h : 3 ≤ max_retries)
    (h0 : oracle 0 = (none, none)) (h1 : oracle 1 = (none, none))
    (h2 : oracle 2 = (some "hello", none)) :
    query_asr_result_counted oracle max_retries = ((some "hello", none), 3) := by
  obtain ⟨k, rfl⟩ : ∃ k, max_retries = k + 3 := ⟨max_retries - 3, by omega⟩
  unfold query_asr_result_counted
  rw [go_step_still oracle (k + 3) (k + 2) 0 h0 (by omega),
    go_step_still oracle (k + 3) (k + 1) 1 h1 (by omega),
    go_step_nonempty oracle (k + 3) k 2 "hello" h2 (by simp)]

/-- C6 witness at maxAttempts = 3. -/
theorem retry_engine_nonempty_immediate_witness :
    query_asr_result_counted
      (fun n => if n < 2 then (none, none) else (some "hello", none)) 3 =
      ((some "hello", none), 3) :=
  retry_engine_nonempty_immediate
    (fun n => if n < 2 then (none, none) else (some "hello", none)) 3
    (by omega) rfl rfl rfl

/-- C7 counterexample: a response with HTTP status 200, no error field, a
non-success side-channel code, and a message containing "processing" is NOT
always interpreted as StillProcessing: the keyword checks for
"error"/"fail" take priority, so the message "error processing" yields a
Failed outcome instead of (none, none). -/
theorem processing_message_with_error_keyword_fails :
    strContains (strLower "error processing") "processing" = true ∧
    query_asr_result_once (QueryInput.response
      { status_code := 200
        api_status_code := "45000001"
        api_message := "error processing"
        body_error := none
        body_message := none
        body_status := none
        body_result := none
        has_audio_info := false
        body_is_json := true
        body_snippet := "" }) = (none, some "ASR API error: error processing") ∧
    query_asr_result_once (QueryInput.response
      { status_code := 200
        api_status_code := "45000001"
        api_message := "error processing"
        body_error := none
        body_message := none
        body_status := none
        body_result := none
        has_audio_info := false
        body_is_json := true
        body_snippet := "" }) ≠ (none, none) := by decide

/-- C7 amended: for a response with HTTP status exactly 200 and no error field
in the body, the interpreter returns StillProcessing when the side-channel
code is the explicit processing code 20000001, or when it is a non-empty code
other than 20000000/20000001/20000003 whose message (lowercased) contains
"processing" but none of the higher-priority keywords "no valid speech",
"silence", "error", "fail". -/
theorem side_channel_processing_yields_still_processing (r : QueryResponse)
    (h200 : r.status_code = 200) (herr : r.body_error = none)
    (hcode : r.api_status_code = "20000001" ∨
      (r.api_status_code ≠ "" ∧ r.api_status_code ≠ "20000000" ∧
        r.api_status_code ≠ "20000001" ∧ r.api_status_code ≠ "20000003" ∧
        strContains (strLower r.api_message) "processing" = true ∧
        strContains (strLower r.api_message) "no valid speech" = false ∧
        strContains (strLower r.api_message) "silence" = false ∧
        strContains (strLower r.api_message) "error" = false ∧
        strContains (strLower r.api_message) "fail" = false)) :
    query_asr_result_once (QueryInput.response r) = (none, none) := by
  unfold query_asr_result_once apiCodeCheck
  rcases hcode with hc | ⟨hne, h0, h1, h3, hp, hnv, hsil, he, hf⟩
  · simp [h200, herr, hc]
  · simp [h200, herr, hne, h0, h1, h3, hp, hnv, hsil, he, hf]

/-- C7 amended witness: a concrete unknown side-channel code with the message
"Start Processing" is interpreted as StillProcessing. -/
theorem side_channel_processing_yields_still_processing_witness :
    query_asr_result_once (QueryInput.response
      { status_code := 200
        api_status_code := "45000000"
        api_message := "Start Processing"
        body_error := none
        body_message := none
        body_status := none
        body_result := none
        has_audio_info := false
        body_is_json := true
        body_snippet := "" }) = (none, none) :=
  side_channel_processing_yields_still_processing
    { status_code := 200
      api_status_code := "45000000"
      api_message := "Start Processing"
      body_error := none
      body_message := none
      body_status := none
      body_result := none
      has_audio_info := false
      body_is_json := true
      body_snippet := "" }
    rfl rfl (Or.inr (by decide))

/-- C8: for a response with success HTTP status and success side-channel code,
no error and no status field, an utterances list yielding no non-empty text:
with the audio_info marker present the interpreter returns Completed("") (and
not StillProcessing); without the marker it returns StillProcessing. -/
theorem audio_info_marker_disambiguates_empty (r : QueryResponse)
    (rd : ResultPayload) (us : List Utterance)
    (h200 : r.status_code = 200) (herr : r.body_error = none)
    (hcode : r.api_status_code = "20000000") (hstat : r.body_status = none)
    (hres : r.body_result = some rd) (hus : rd.utterances = some us)
    (hempty : ∀ u ∈ us, u.text = "") :
    (r.has_audio_info = true →
      query_asr_result_once (QueryInput.response r) = (some "", none)) ∧
    (r.has_audio_info = false →
      query_asr_result_once (QueryInput.response r) = (none, none)) := by
  have hparts : us.filterMap (fun u =>
      if u.text ≠ "" then
        some (if speakerOf u ≠ "" then "[说话人" ++ speakerOf u ++ "] " ++ u.text
          else u.text)
      else none) = [] := by
    rw [List.filterMap_eq_nil_iff]
    intro u hu
    simp [hempty u hu]
  unfold query_asr_result_once apiCodeCheck statusAndResultCheck resultCheck
    interpretUtterances
  constructor
  · intro hmark
    simp only [h200, herr, hcode, hstat, hres, hus, hmark]
    simp [hparts]
    intro x hx hne
    exact absurd (hempty x hx) hne
  · intro hmark
    simp only [h200, herr, hcode, hstat, hres, hus, hmark]
    simp [hparts]
    exact hempty

/-- C8 witness: one utterances list with a single empty-text segment, once
with the audio_info marker and once without. -/
theorem audio_info_marker_disambiguates_empty_witness :
    query_asr_result_once (QueryInput.response
      { status_code := 200
        api_status_code := "20000000"
        api_message := ""
        body_error := none
        body_message := none
        body_status := none
        body_result := some { utterances := some [{ text := ""
                                                    speaker_id := none
                                                    speaker := none
                                                    additions_speaker := none }]
                              text := "" }
        has_audio_info := true
        body_is_json := true
        body_snippet := "" }) = (some "", none) ∧
    query_asr_result_once (QueryInput.response
      { status_code := 200
        api_status_code := "20000000"
        api_message := ""
        body_error := none
        body_message := none
        body_status := none
        body_result := some { utterances := some [{ text := ""
                                                    speaker_id := none
                                                    speaker := none
                                                    additions_speaker := none }]
                              text := "" }
        has_audio_info := false
        body_is_json := true
        body_snippet := "" }) = (none, none) := by
  constructor
  · exact (audio_info_marker_disambiguates_empty _ _ _ rfl rfl rfl rfl rfl rfl
      (by intro u hu; simp at hu; simp [hu])).1 rfl
  · exact (audio_info_marker_disambiguates_empty _ _ _ rfl rfl rfl rfl rfl rfl
      (by intro u hu; simp at hu; simp [hu])).2 rfl

/-- Exclusivity of the utterance-extraction outcomes. -/
theorem exclusive_interpretUtterances (us : List Utterance) (b : Bool) :
    (interpretUtterances us b).1 = none ∨ (interpretUtterances us b).2 = none := by
  unfold interpretUtterances
  dsimp only
  split
  · simp
  · split <;> simp

/-- Exclusivity of the result-payload extraction outcomes. -/
theorem exclusive_resultCheck (r : QueryResponse) :
    (resultCheck r).1 = none ∨ (resultCheck r).2 = none := by
  unfold resultCheck
  rcases hr : r.body_result with _ | rd
  · simp
  · dsimp only
    rcases hu : rd.utterances with _ | us
    · by_cases hm : r.has_audio_info = true
      · simp [hm]
      · by_cases ht : rd.text = "" <;> simp [hm, ht]
    · exact exclusive_interpretUtterances us r.has_audio_info

/-- Exclusivity of the status-field check outcomes. -/
theorem exclusive_statusAndResultCheck (r : QueryResponse) :
    (statusAndResultCheck r).1 = none ∨ (statusAndResultCheck r).2 = none := by
  unfold statusAndResultCheck
  (repeat' split) <;> first
  | apply exclusive_resultCheck
  | simp

/-- Exclusivity of the side-channel code check outcomes. -/
theorem exclusive_apiCodeCheck (r : QueryResponse) :
    (apiCodeCheck r).1 = none ∨ (apiCodeCheck r).2 = none := by
  unfold apiCodeCheck
  (repeat' split) <;> first
  | apply exclusive_statusAndResultCheck
  | simp

/-- C10 (implicit): the single-query result interpreter always returns a pair
with at most one non-None component, so every response maps to exactly one of
still-processing (none, none), completed (some text, none), or failed
(none, some message). -/
theorem query_once_exclusive_outcome (q : QueryInput) :
    (query_asr_result_once q).1 = none ∨ (query_asr_result_once q).2 = none := by
  cases q with
  | timeout => simp [query_asr_result_once]
  | connectionError => simp [query_asr_result_once]
  | requestException s er => simp [query_asr_result_once]
  | response r =>
    unfold query_asr_result_once
    (repeat' split) <;> first
    | apply exclusive_apiCodeCheck
    | simp

/-- C2 (code bug): when submission succeeds and the Retry Query Engine
returns success with an empty transcript ("", no error), the synchronous
endpoint does not return it as a successful result: the `if not transcript:`
check conflates "" with None, so the task is left in status "processing",
no transcript is recorded, and HTTP 500 is raised — contradicting the
convention, documented in `query_asr_result` and in the background poller,
that "" is a valid completed value distinct from absent. -/
theorem sync_endpoint_discards_empty_transcript :
    (syncFinish (some "", none) 7 (syncCreatedTask 1 "url" "tid" 0)).1.status =
      "processing" ∧
    (syncFinish (some "", none) 7 (syncCreatedTask 1 "url" "tid" 0)).1.transcript =
      none ∧
    (syncFinish (some "", none) 7 (syncCreatedTask 1 "url" "tid" 0)).2 =
      SyncOutcome.httpError 500
        "Failed to get transcription result, task may still be processing" := by
  decide

/-- C1 counterexample: the three-way invariant is not maintained across every
core operation.  A task created processing by the synchronous endpoint, then
failed by a Background Poller tick, and finally overwritten by the
synchronous endpoint's post-query success update (which assigns status and
transcript but never clears error_message) ends with status = completed,
a transcript, AND a non-null error_message. -/
theorem sync_update_after_poller_failure_breaks_invariant :
    ¬ taskInvariant ((syncFinish (some "hello", none) 2
      (pollerStepGuarded (OnceOutcome.ok none (some "ASR task failed: x")) 1
        (syncCreatedTask 0 "url" "tID" 0))).1) := by
  decide

/-- C1 amended: every task row created by the submission paths satisfies the
three-way invariant; a Background Poller step preserves it on any task; and
the synchronous endpoint's post-query update establishes it provided the task
is still in the processing state the endpoint created it in (null transcript
and error_message) — i.e. absent an interleaved poller write to the same
task. -/
theorem task_invariant_preserved_by_core_ops
    (t : ASRTask) (o : OnceOutcome) (qr : Option String × Option String)
    (i now : Nat) (url suffix msg tid : String) :
    taskInvariant (validationFailedTask i url suffix msg now) ∧
    taskInvariant (submitFailedTask i url suffix msg now) ∧
    taskInvariant (pendingTask i url tid now) ∧
    taskInvariant (syncCreatedTask i url tid now) ∧
    (taskInvariant t → taskInvariant (pollerStepGuarded o now t)) ∧
    (t.status = "processing" → t.transcript = none → t.error_message = none →
      taskInvariant (syncFinish qr now t).1) := by
  refine ⟨by simp [taskInvariant, validationFailedTask],
    by simp [taskInvariant, submitFailedTask],
    by simp [taskInvariant, pendingTask],
    by simp [taskInvariant, syncCreatedTask], ?_, ?_⟩
  · intro hinv
    unfold pollerStepGuarded
    by_cases hs : t.status = "pending" ∨ t.status = "processing"
    · rw [if_pos hs]
      obtain ⟨htr, herr⟩ := hinv.2.2.mp hs
      unfold pollerProcess
      rcases hs with hp | hp
      · rcases o with ⟨tr, er⟩ | m
        · rcases tr with _ | ts <;> rcases er with _ | es
          · simp_all [taskInvariant, pyTruthy]
          · by_cases he : es = "" <;> simp_all [taskInvariant, pyTruthy]
          · simp_all [taskInvariant, pyTruthy]
          · by_cases he : es = "" <;> simp_all [taskInvariant, pyTruthy]
        · simp_all [taskInvariant, pyTruthy]
      · rcases o with ⟨tr, er⟩ | m
        · rcases tr with _ | ts <;> rcases er with _ | es
          · simp_all [taskInvariant, pyTruthy]
          · by_cases he : es = "" <;> simp_all [taskInvariant, pyTruthy]
          · simp_all [taskInvariant, pyTruthy]
          · by_cases he : es = "" <;> simp_all [taskInvariant, pyTruthy]
        · simp_all [taskInvariant, pyTruthy]
    · rw [if_neg hs]
      exact hinv
  · intro hst htr herr
    unfold syncFinish
    rcases qr with ⟨tr, er⟩
    dsimp only
    rcases tr with _ | ts
    · rcases er with _ | es
      · simp_all [taskInvariant, pyTruthy]
      · by_cases he : es = "" <;> simp_all [taskInvariant, pyTruthy]
    · by_cases hts : ts = ""
      · rcases er with _ | es
        · simp_all [taskInvariant, pyTruthy]
        · by_cases he : es = "" <;> simp_all [taskInvariant, pyTruthy]
      · simp_all [taskInvariant, pyTruthy]

/-- C1 amended witness: the poller-step and sync-update clauses applied to a
concrete processing task. -/
theorem task_invariant_preserved_witness :
    taskInvariant (pollerStepGuarded (OnceOutcome.ok (some "hi") none) 5
      (syncCreatedTask 0 "u" "t" 0)) ∧
    taskInvariant (syncFinish (some "hi", none) 5 (syncCreatedTask 0 "u" "t" 0)).1 :=
  ⟨(task_invariant_preserved_by_core_ops (syncCreatedTask 0 "u" "t" 0)
      (OnceOutcome.ok (some "hi") none) (some "hi", none) 0 5 "u" "s" "m" "t").2.2.2.2.1
      (by decide),
    (task_invariant_preserved_by_core_ops (syncCreatedTask 0 "u" "t" 0)
      (OnceOutcome.ok (some "hi") none) (some "hi", none) 0 5 "u" "s" "m" "t").2.2.2.2.2
      rfl rfl rfl⟩

/-- C3 counterexample: a Background Poller step that moves a processing task
to failed does not assign completed_at — it stays null — contradicting the
claim that every transition into failed sets it. -/
theorem poller_failure_leaves_completed_at_unset :
    (pollerProcess (OnceOutcome.ok none (some "boom")) 5
      (syncCreatedTask 0 "u" "t" 0)).status = "failed" ∧
    (pollerProcess (OnceOutcome.ok none (some "boom")) 5
      (syncCreatedTask 0 "u" "t" 0)).completed_at = none := by
  decide

/-- C3 amended: completed_at starts null at every creation site and is
assigned (to the current time) by an operation exactly when that operation
moves the task into completed; transitions into failed and all other
operations leave completed_at unchanged. -/
theorem completed_at_set_only_on_completion
    (t : ASRTask) (o : OnceOutcome) (qr : Option String × Option String)
    (i now : Nat) (url suffix msg tid : String) :
    (validationFailedTask i url suffix msg now).completed_at = none ∧
    (submitFailedTask i url suffix msg now).completed_at = none ∧
    (pendingTask i url tid now).completed_at = none ∧
    (syncCreatedTask i url tid now).completed_at = none ∧
    (t.status = "pending" ∨ t.status = "processing" →
      ((pollerProcess o now t).status = "completed" →
        (pollerProcess o now t).completed_at = some now) ∧
      ((pollerProcess o now t).status ≠ "completed" →
        (pollerProcess o now t).completed_at = t.completed_at)) ∧
    (((syncFinish qr now t).1.status = "completed" →
        (syncFinish qr now t).1.completed_at = some now) ∧
      ((syncFinish qr now t).1.status ≠ "completed" →
        (syncFinish qr now t).1.completed_at = t.completed_at)) := by
  refine ⟨rfl, rfl, rfl, rfl, ?_, ?_⟩
  · intro hs
    unfold pollerProcess
    rcases hs with hp | hp
    · rcases o with ⟨tr, er⟩ | m
      · rcases tr with _ | ts <;> rcases er with _ | es
        · simp_all [pyTruthy]
        · by_cases he : es = "" <;> simp_all [pyTruthy]
        · simp_all [pyTruthy]
        · by_cases he : es = "" <;> simp_all [pyTruthy]
      · simp_all [pyTruthy]
    · rcases o with ⟨tr, er⟩ | m
      · rcases tr with _ | ts <;> rcases er with _ | es
        · simp_all [pyTruthy]
        · by_cases he : es = "" <;> simp_all [pyTruthy]
        · simp_all [pyTruthy]
        · by_cases he : es = "" <;> simp_all [pyTruthy]
      · simp_all [pyTruthy]
  · unfold syncFinish
    rcases qr with ⟨tr, er⟩
    dsimp only
    rcases tr with _ | ts
    · rcases er with _ | es
      · simp [pyTruthy]
      · by_cases he : es = "" <;> simp [pyTruthy, he]
    · by_cases hts : ts = ""
      · rcases er with _ | es
        · simp [pyTruthy, hts]
        · by_cases he : es = "" <;> simp [pyTruthy, hts, he]
      · simp [pyTruthy, hts]

/-- C3 amended witness: the poller clause at a completing step and the sync
clause at a failing result. -/
theorem completed_at_set_only_on_completion_witness :
    (pollerProcess (OnceOutcome.ok (some "hi") none) 5
      (pendingTask 0 "u" "t" 0)).completed_at = some 5 ∧
    (syncFinish (none, some "bad") 5 (syncCreatedTask 0 "u" "t" 0)).1.completed_at =
      none :=
  ⟨((completed_at_set_only_on_completion (pendingTask 0 "u" "t" 0)
        (OnceOutcome.ok (some "hi") none) (none, some "bad") 0 5 "u" "s" "m"
        "t").2.2.2.2.1 (by decide)).1 (by decide),
    ((completed_at_set_only_on_completion (syncCreatedTask 0 "u" "t" 0)
        (OnceOutcome.ok (some "hi") none) (none, some "bad") 0 5 "u" "s" "m"
        "t").2.2.2.2.2).2 (by decide)⟩

/-- C4: a Background Poller tick leaves every task whose status is completed
or failed entirely unchanged (status, transcript, error_message and all other
fields), because the scan only selects tasks with status pending or
processing. -/
theorem terminal_tasks_untouched_by_tick (oracle : String → OnceOutcome)
    (now : Nat) (tasks : List ASRTask) (i : Nat) (hi : i < tasks.length)
    (hterm : tasks[i].status = "completed" ∨ tasks[i].status = "failed") :
    (checkPendingTasks oracle now tasks)[i]? = some tasks[i] := by
  unfold checkPendingTasks
  rw [List.getElem?_map, List.getElem?_eq_getElem hi]
  unfold pollerStepGuarded
  rcases hterm with h | h <;> simp [h]

/-- C4 witness: a tick over a one-element list holding a completed task. -/
theorem terminal_tasks_untouched_by_tick_witness :
    (checkPendingTasks (fun _ => OnceOutcome.exc "e") 9
      [{ id := 4
         audio_url := "u"
         task_id := "t"
         status := "completed"
         transcript := some "txt"
         error_message := none
         created_at := 0
         updated_at := 1
         completed_at := some 1 }])[0]? =
      some { id := 4
             audio_url := "u"
             task_id := "t"
             status := "completed"
             transcript := some "txt"
             error_message := none
             created_at := 0
             updated_at := 1
             completed_at := some 1 } :=
  terminal_tasks_untouched_by_tick (fun _ => OnceOutcome.exc "e") 9 _ 0
    (by decide) (Or.inl rfl)

/-- C9: if the external query for one scanned task raises an unexpected
exception, the exception is caught per-task: that task is set to failed with
an internal-error message, and all tasks before and after it in the same scan
are still processed exactly as they would have been. -/
theorem poller_exception_isolated_per_task (oracle : String → OnceOutcome)
    (now : Nat) (pre post : List ASRTask) (t : ASRTask) (m : String)
    (hst : t.status = "pending" ∨ t.status = "processing")
    (ho : oracle t.task_id = OnceOutcome.exc m) :
    checkPendingTasks oracle now (pre ++ t :: post) =
      checkPendingTasks oracle now pre ++
        pollerProcess (OnceOutcome.exc m) now t ::
          checkPendingTasks oracle now post ∧
    (pollerProcess (OnceOutcome.exc m) now t).status = "failed" ∧
    (pollerProcess (OnceOutcome.exc m) now t).error_message =
      some ("Internal error: " ++ m) := by
  refine ⟨?_, ?_, ?_⟩
  · simp only [checkPendingTasks, List.map_append, List.map_cons]
    rw [show pollerStepGuarded (oracle t.task_id) now t =
        pollerProcess (OnceOutcome.exc m) now t from by
      unfold pollerStepGuarded
      rw [if_pos hst, ho]]
  · unfold pollerProcess
    by_cases hp : t.status = "pending" <;> simp [hp]
  · unfold pollerProcess
    by_cases hp : t.status = "pending" <;> simp [hp]

/-- Oracle used by the C9 witness: the task with external id "boom" raises,
every other query returns a completed transcript. -/
def oracleW : String → OnceOutcome := fun tid =>
  if tid = "boom" then OnceOutcome.exc "kaput" else OnceOutcome.ok (some "ok") none

/-- C9 witness: a three-task scan whose middle task raises. -/
theorem poller_exception_isolated_per_task_witness :
    checkPendingTasks oracleW 3
        ([pendingTask 1 "u1" "a" 0] ++ pendingTask 2 "u2" "boom" 0 ::
          [syncCreatedTask 3 "u3" "c" 0]) =
      checkPendingTasks oracleW 3 [pendingTask 1 "u1" "a" 0] ++
        pollerProcess (OnceOutcome.exc "kaput") 3 (pendingTask 2 "u2" "boom" 0) ::
          checkPendingTasks oracleW 3 [syncCreatedTask 3 "u3" "c" 0] ∧
    (pollerProcess (OnceOutcome.exc "kaput") 3
      (pendingTask 2 "u2" "boom" 0)).status = "failed" ∧
    (pollerProcess (OnceOutcome.exc "kaput") 3
      (pendingTask 2 "u2" "boom" 0)).error_message =
      some ("Internal error: " ++ "kaput") :=
  poller_exception_isolated_per_task oracleW 3 _ _ _ _ (Or.inl rfl) (by decide)
